import Mathlib

/-!
# Verification of `src-tauri/src/utils/resolve.rs` (clash-verge-rev)

A shallow embedding of the bootstrap orchestrator: port resolution
(`find_unused_port` / `resolve_setup`), window-geometry validation and the
off-screen heuristic (`create_window`), geometry persistence
(`save_window_size_position`), and the scheme-import pipeline
(`resolve_scheme`), together with theorems settling the specification's
claims about them.

Modelling conventions:
* `f64` window dimensions are embedded as exact rationals (`ℚ`): the code
  only compares, selects and clamps these values (no rounding arithmetic),
  and the single division (physical → logical by the scale factor) is exact
  at the scale factors the claims use.
* `u16`/`u32`/`i32` machine integers are embedded as `Nat`/`Int`, with the
  wrap-around of the one subtraction performed at `u32` made explicit.
* Fallible operations (`Result`) become `Except`; OS effects (bind probe,
  fetch, notification display) become explicit oracle parameters describing
  their outcome, and the functions return the observable trace.
-/

namespace Resolve

/-! ## Scheme-URL parsing (`resolve_scheme`, lines 239-242)

Rust's `str::trim_start_matches(pat)` removes *all* leading occurrences of
the pattern, repeatedly.  We model it on `List Char` with a fuel argument
(the length of the string bounds the number of removals, since each removal
consumes at least one character), so the definition is structurally
recursive and kernel-reducible. -/

/-- One fuel-indexed step of repeated prefix removal. -/
def trimL : Nat → List Char → List Char → List Char
  | 0, _, s => s
  | Nat.succ n, pre, s =>
    if pre ≠ [] ∧ pre.isPrefixOf s then trimL n pre (s.drop pre.length) else s

/-- Rust `str::trim_start_matches`: remove every leading occurrence of
`pre` from `s`. -/
def trim_start_matches (pre s : String) : String :=
  String.mk (trimL s.data.length pre.data s.data)

/-- First recognised install-request prefix. -/
def prefix1 : String := "clash://install-config/?url="

/-- Second recognised install-request prefix. -/
def prefix2 : String := "clash://install-config?url="

/-- The URL `resolve_scheme` extracts from its parameter:
`param.trim_start_matches(prefix1).trim_start_matches(prefix2)`. -/
def schemeUrl (param : String) : String :=
  trim_start_matches prefix2 (trim_start_matches prefix1 param)

/-! ## Port resolution (`find_unused_port`, lines 19-34; `resolve_setup`, lines 48-62) -/

/-- Outcome of the `TcpListener::bind("127.0.0.1:0")` probe followed by
`local_addr()`: the probe may yield a port, the bind may fail, or the bind
may succeed but reading the local address fail. -/
inductive BindProbe where
  | ok (port : Nat)
  | bindErr
  | localAddrErr
  deriving DecidableEq, Repr

/-- The fallback chain used throughout `resolve_setup`:
`verge_mixed_port.unwrap_or(clash_mixed_port)`. -/
def fallback_port (verge_mixed_port : Option Nat) (clash_mixed_port : Nat) : Nat :=
  verge_mixed_port.getD clash_mixed_port

/-- `find_unused_port`: on bind success return the probed port (propagating
a `local_addr` error with `?`); on bind failure return the fallback chain
wrapped in `Ok` (after a warning log). -/
def find_unused_port (probe : BindProbe) (verge_mixed_port : Option Nat)
    (clash_mixed_port : Nat) : Except Unit Nat :=
  match probe with
  | .ok p => .ok p
  | .localAddrErr => .error ()
  | .bindErr => .ok (fallback_port verge_mixed_port clash_mixed_port)

/-- The port `resolve_setup` settles on: start from the fallback chain;
when `enable_random_port` is set, replace it by
`find_unused_port().unwrap_or(fallback chain)`. -/
def resolved_port (enable_random_port : Bool) (probe : BindProbe)
    (verge_mixed_port : Option Nat) (clash_mixed_port : Nat) : Nat :=
  let port := fallback_port verge_mixed_port clash_mixed_port
  if enable_random_port then
    (find_unused_port probe verge_mixed_port clash_mixed_port).toOption.getD
      (fallback_port verge_mixed_port clash_mixed_port)
  else port

/-! ## Window-geometry validation (`create_window`, lines 133-157) -/

/-- Target platform, selecting the conditionally-compiled default geometry. -/
inductive Platform where
  | windows
  | macos
  | linux
  deriving DecidableEq, Repr

/-- Platform default inner size used on the `_` branch of the geometry
match (`800×636` on Windows, `800×642` on macOS and Linux). -/
def platformDefaultSize : Platform → ℚ × ℚ
  | .windows => (800, 636)
  | .macos => (800, 642)
  | .linux => (800, 642)

/-- What `create_window` does with the persisted `window_size_position`:
use the (clamped) rect, or fall back to the platform default size plus
centering. -/
inductive PlacementDecision where
  | usePersisted (width height x y : ℚ)
  | usePlatformDefault
  deriving DecidableEq, Repr

/-- Rust `f64::clamp(lo, f64::INFINITY)` for a non-NaN value: raise to `lo`
when below it. -/
def clampMin (lo v : ℚ) : ℚ := max lo v

/-- The geometry `match` in `create_window`: a persisted value of length 4
is used with width clamped to `600.0` and height to `520.0` (position
unchanged); anything else takes the platform-default branch, which centers
the window. -/
def validate_window_size_position (wsp : Option (List ℚ)) : PlacementDecision :=
  match wsp with
  | some size_pos =>
    if h : size_pos.length = 4 then
      .usePersisted (clampMin 600 (size_pos.get ⟨0, by omega⟩))
        (clampMin 520 (size_pos.get ⟨1, by omega⟩))
        (size_pos.get ⟨2, by omega⟩) (size_pos.get ⟨3, by omega⟩)
    else .usePlatformDefault
  | none => .usePlatformDefault

/-- Builder geometry after the match: the inner size handed to the
builder, the explicit position if one was set, and whether `.center()` was
called on the builder. -/
structure BuilderGeom where
  width : ℚ
  height : ℚ
  position : Option (ℚ × ℚ)
  centerCalled : Bool
  deriving DecidableEq, Repr

/-- The builder calls made on each branch of the geometry match: the
persisted branch sets `inner_size(w, h).position(x, y)`; the default
branch sets the platform default inner size and calls `.center()`. -/
def builtGeometry (p : Platform) (wsp : Option (List ℚ)) : BuilderGeom :=
  match validate_window_size_position wsp with
  | .usePersisted w h x y => ⟨w, h, some (x, y), false⟩
  | .usePlatformDefault =>
    ⟨(platformDefaultSize p).1, (platformDefaultSize p).2, none, true⟩

/-! ## Off-screen heuristic (`create_window`, lines 181-198)

`monitor.size()` is a `PhysicalSize<u32>` and `win.outer_position()` a
`PhysicalPosition<i32>`.  The code computes `size.width - 200` *at `u32`*
(wrapping in release builds) and only then casts to `i32`, so the value
compared against `pos.x` is the two's-complement reinterpretation of
`(W - 200) mod 2^32`. -/

/-- Wrapping `u32` subtraction of 200 (the operand `w` is a `u32`, i.e.
`w < 2^32`). -/
def wrapSub200 (w : Nat) : Nat := (w + 2 ^ 32 - 200) % 2 ^ 32

/-- Reinterpret a `u32` bit pattern as an `i32` (Rust `as i32`). -/
def toI32 (n : Nat) : Int := if n < 2 ^ 31 then (n : Int) else (n : Int) - 2 ^ 32

/-- The off-screen test inside `create_window`: monitor size `(W, H)` in
`u32`, outer position `(x, y)` in `i32`. -/
def offScreen (W H : Nat) (x y : Int) : Bool :=
  x < -400 || x > toI32 (wrapSub200 W) || y < -200 || y > toI32 (wrapSub200 H)

/-- `center.unwrap_or(true)`: the closure's result decides re-centering,
and any failure (no current monitor, position unreadable) defaults to
re-centering. -/
def centerDecision (r : Except Unit Bool) : Bool :=
  r.toOption.getD true

/-! ## Window lifecycle (`create_window`, lines 115-212)

The window system holds at most one window labelled `"main"`
(`get_window("main")` / `WindowBuilder::new(_, "main", _)`), so the state
is an `Option`.  The effectful window calls (`unminimize`, `show`,
`set_focus`, `center`, `maximize`) are wrapped in `trace_err!` in the
source — failures are logged and ignored — so the model applies their
successful effect. -/

/-- Observable state of the single `"main"` window. -/
structure MainWindow where
  minimized : Bool
  visible : Bool
  focused : Bool
  maximized : Bool
  geometry : BuilderGeom
  recentered : Bool
  deriving DecidableEq, Repr

/-- The window system: at most one `"main"` window. -/
structure WinSys where
  window : Option MainWindow
  deriving DecidableEq, Repr

/-- Configuration state read by `create_window`. -/
structure VergeWindowCfg where
  window_size_position : Option (List ℚ)
  window_is_maximized : Option Bool
  deriving DecidableEq, Repr

/-- `create_window`: if a `"main"` window exists, unminimize / show / focus
it and return (no build).  Otherwise build one from the validated geometry
(initially invisible, unfocused), run the off-screen heuristic
(`offScreenResult`, an oracle for the closure's outcome), and apply the
maximize flag.  `buildOk` is the oracle for `builder.build()`; on failure
an error is logged and the state is unchanged.  The returned `Bool`
reports whether a window was built by this call. -/
def create_window (platform : Platform) (cfg : VergeWindowCfg) (buildOk : Bool)
    (offScreenResult : Except Unit Bool) (sys : WinSys) : WinSys × Bool :=
  match sys.window with
  | some w =>
    (⟨some { w with minimized := false, visible := true, focused := true }⟩, false)
  | none =>
    if buildOk then
      let is_maximized := cfg.window_is_maximized.getD false
      let geom := builtGeometry platform cfg.window_size_position
      let recenter := centerDecision offScreenResult
      (⟨some { minimized := false, visible := false, focused := false,
               maximized := is_maximized, geometry := geom,
               recentered := recenter }⟩, true)
    else (⟨none⟩, false)

/-! ## Geometry persistence (`save_window_size_position`, lines 214-237) -/

/-- Live window measurements read back by `save_window_size_position`:
physical inner size, physical outer position, scale factor, maximized
flag.  `to_logical::<f64>(scale)` divides the physical values by the scale
factor. -/
structure LiveWindow where
  physWidth : ℚ
  physHeight : ℚ
  physX : ℚ
  physY : ℚ
  scale : ℚ
  isMaximized : Bool
  deriving DecidableEq, Repr

/-- Persisted verge fields touched by geometry persistence. -/
structure VergeGeom where
  window_size_position : Option (List ℚ)
  window_is_maximized : Option Bool
  deriving DecidableEq, Repr

/-- Result of one `save_window_size_position` call: the `Result<()>`, the
in-memory configuration afterwards, and the on-disk snapshot afterwards. -/
structure SaveResult where
  ret : Except String Unit
  mem : VergeGeom
  disk : VergeGeom
  deriving Repr

/-- `save_window_size_position(app_handle, save_to_file)`, with the window
lookup modelled by `win : Option LiveWindow` and the durable store by
`disk`.  Faithful to the source's order: the `save_file()` flush happens
*first*, before the window is read and before `window_is_maximized` /
`window_size_position` are updated in memory.  The flush itself is
modelled as succeeding. -/
def save_window_size_position (save_to_file : Bool) (verge : VergeGeom)
    (win : Option LiveWindow) (disk : VergeGeom) : SaveResult :=
  let disk1 := if save_to_file then verge else disk
  match win with
  | none => ⟨.error "failed to get window", verge, disk1⟩
  | some w =>
    let width := w.physWidth / w.scale
    let height := w.physHeight / w.scale
    let x := w.physX / w.scale
    let y := w.physY / w.scale
    let verge1 := { verge with window_is_maximized := some w.isMaximized }
    let verge2 :=
      if !w.isMaximized ∧ 600 ≤ width ∧ 520 ≤ height then
        { verge1 with window_size_position := some [width, height, x, y] }
      else verge1
    ⟨.ok (), verge2, disk1⟩

/-! ## Scheme import (`resolve_scheme`, lines 239-266)

`PrfItem::from_url` and `append_item` are external collaborators; their
outcomes are oracle parameters.  `Notification::show()` returns a
`Result` whose failure makes the `.unwrap()` panic; `showOk` is its
oracle.  The run records the fetch URL, the notifications successfully
displayed, whether the failure log line ran, and whether the task
panicked. -/

/-- Body of the one fixed-title notification. -/
inductive NotifyBody where
  | importSuccess
  | importFailed
  deriving DecidableEq, Repr

/-- Observable trace of one `resolve_scheme(param)` run. -/
structure SchemeRun where
  url : String
  notifications : List NotifyBody
  loggedUrl : Bool
  panicked : Bool
  deriving DecidableEq, Repr

/-- `resolve_scheme`: strip the two prefixes, fetch; on fetch success and
append success show the Success notification (unwrapping the show result);
on fetch success and append failure do nothing further; on fetch failure
show the Failure notification (unwrapping) and then log the URL. -/
def resolve_scheme (param : String) (fetchOk appendOk showOk : Bool) : SchemeRun :=
  let url := schemeUrl param
  if fetchOk then
    if appendOk then
      if showOk then ⟨url, [.importSuccess], false, false⟩
      else ⟨url, [], false, true⟩
    else ⟨url, [], false, false⟩
  else
    if showOk then ⟨url, [.importFailed], true, false⟩
    else ⟨url, [], false, true⟩

/-! ## Bootstrap sequence (`resolve_setup`, lines 36-106) -/

/-- The ordered observable steps of `resolve_setup`. -/
inductive Step where
  | initResources
  | initScheme
  | startupScript
  | persistPort (port : Nat)
  | initConfig
  | launchCore
  | embedServer
  | updateSystray
  | createWindow
  | initLaunch
  | initSysproxy
  | updateSystrayPart
  | initHotkey
  | initTimer
  | schemeImport (url : String)
  deriving DecidableEq, Repr

/-- The step sequence `resolve_setup` executes: fixed prefix, port
resolution and persistence, core and collaborator startup, window creation
unless `enable_silent_start`, collaborator setup, and finally — iff the
argv (program name included) has more than one element — a synchronous
(`block_on`) scheme import of `argvs[1]`, the last thing before
`resolve_setup` returns. -/
def resolve_setup (enable_random_port : Bool) (probe : BindProbe)
    (verge_mixed_port : Option Nat) (clash_mixed_port : Nat)
    (enable_silent_start : Option Bool) (argv : List String) : List Step :=
  [Step.initResources, Step.initScheme, Step.startupScript,
   Step.persistPort (resolved_port enable_random_port probe verge_mixed_port clash_mixed_port),
   Step.initConfig, Step.launchCore, Step.embedServer, Step.updateSystray]
  ++ (if !(enable_silent_start.getD false) then [Step.createWindow] else [])
  ++ [Step.initLaunch, Step.initSysproxy, Step.updateSystrayPart,
      Step.initHotkey, Step.initTimer]
  ++ (if argv.length > 1 then [Step.schemeImport (argv.getD 1 "")] else [])

/-- Recogniser for scheme-import steps. -/
def Step.isImport : Step → Bool
  | .schemeImport _ => true
  | _ => false

/-! ## Spec-reading comparison definitions

These two definitions follow the *claims'* words rather than the source;
they exist only to be compared against the source-derived definitions
above. -/

/-- The off-screen test as claim C4 words it: exact integer arithmetic on
the monitor size, `x < -400 ∨ x > W - 200 ∨ y < -200 ∨ y > H - 200`. -/
def offScreenSpecC4 (W H : Nat) (x y : Int) : Bool :=
  x < -400 || x > (W : Int) - 200 || y < -200 || y > (H : Int) - 200

/-- The URL extraction as claim C8 words it: strip one occurrence of a
matching prefix from the front and use the remainder verbatim; inputs
matching neither prefix pass through unchanged. -/
def schemeUrlSpecC8 (param : String) : String :=
  if prefix1.data.isPrefixOf param.data then
    String.mk (param.data.drop prefix1.data.length)
  else if prefix2.data.isPrefixOf param.data then
    String.mk (param.data.drop prefix2.data.length)
  else param

/-! ## Helper lemmas -/

theorem trimL_noStrip (n : Nat) (pre s : List Char)
    (h : pre.isPrefixOf s = false) : trimL n pre s = s := by
  cases n <;> simp [trimL, h]

theorem trimL_once (n : Nat) (pre rest : List Char) (hne : pre ≠ [])
    (h : pre.isPrefixOf rest = false) :
    trimL (n + 1) pre (pre ++ rest) = rest := by
  have hpre : pre.isPrefixOf (pre ++ rest) = true :=
    List.isPrefixOf_iff_prefix.mpr (List.prefix_append pre rest)
  simp [trimL, hne, hpre, List.drop_left, trimL_noStrip n pre rest h]

theorem stringMk_data (s : String) : String.mk s.data = s := rfl

theorem string_data_append (a b : String) : (a ++ b).data = a.data ++ b.data := rfl

theorem p1_not_prefixOf_p2_append (r : List Char) :
    prefix1.data.isPrefixOf (prefix2.data ++ r) = false := by
  by_contra hc
  have h1 : prefix1.data <+: prefix2.data ++ r :=
    List.isPrefixOf_iff_prefix.mp
      (by revert hc; cases prefix1.data.isPrefixOf (prefix2.data ++ r) <;> simp)
  have h2 : prefix2.data <+: prefix2.data ++ r := List.prefix_append _ _
  rcases List.prefix_or_prefix_of_prefix h1 h2 with hc2 | hc2
  · exact absurd (List.isPrefixOf_iff_prefix.mpr hc2) (by decide)
  · exact absurd (List.isPrefixOf_iff_prefix.mpr hc2) (by decide)

theorem trim_p1_strip_once (rest : String)
    (h1 : prefix1.data.isPrefixOf rest.data = false) :
    trim_start_matches prefix1 (prefix1 ++ rest) = rest := by
  unfold trim_start_matches
  rw [string_data_append]
  have h28 : prefix1.data.length = 28 := by decide
  have hlen : (prefix1.data ++ rest.data).length = 27 + rest.data.length + 1 := by
    rw [List.length_append, h28]; omega
  rw [hlen, trimL_once _ _ _ (by decide) h1, stringMk_data]

theorem trim_p2_strip_once (rest : String)
    (h2 : prefix2.data.isPrefixOf rest.data = false) :
    trim_start_matches prefix2 (prefix2 ++ rest) = rest := by
  unfold trim_start_matches
  rw [string_data_append]
  have h27 : prefix2.data.length = 27 := by decide
  have hlen : (prefix2.data ++ rest.data).length = 26 + rest.data.length + 1 := by
    rw [List.length_append, h27]; omega
  rw [hlen, trimL_once _ _ _ (by decide) h2, stringMk_data]

theorem trim_no_match (pre s : String)
    (h : pre.data.isPrefixOf s.data = false) :
    trim_start_matches pre s = s := by
  unfold trim_start_matches
  rw [trimL_noStrip _ _ _ h, stringMk_data]

/-! ## Claim theorems -/

/-- C8, counterexample.  The claim reads `resolve_scheme` as stripping one
occurrence of a matching prefix and using the remainder verbatim
(`schemeUrlSpecC8`).  The code's `trim_start_matches` removes *all*
leading occurrences, so on an input whose remainder itself starts with an
install-request prefix the two disagree: the code fetches
`https://example.com/p.yaml`, not the verbatim remainder
`clash://install-config?url=https://example.com/p.yaml`. -/
theorem schemeUrl_not_single_strip :
    schemeUrl
        "clash://install-config/?url=clash://install-config?url=https://example.com/p.yaml"
      = "https://example.com/p.yaml" ∧
    schemeUrlSpecC8
        "clash://install-config/?url=clash://install-config?url=https://example.com/p.yaml"
      = "clash://install-config?url=https://example.com/p.yaml" ∧
    schemeUrl
        "clash://install-config/?url=clash://install-config?url=https://example.com/p.yaml"
      ≠ schemeUrlSpecC8
        "clash://install-config/?url=clash://install-config?url=https://example.com/p.yaml" := by
  refine ⟨by decide, by decide, by decide⟩

/-- C8, amended.  `resolve_scheme` removes all leading occurrences of
`clash://install-config/?url=` and then all leading occurrences of
`clash://install-config?url=` from the front of the input and uses the
remainder as the fetch target; in particular, when the remainder after a
single prefix occurrence starts with neither prefix it is used verbatim,
the claim's example strips to `https://example.com/p.yaml`, and an input
matching neither prefix is passed through unchanged. -/
theorem schemeUrl_spec (rest param : String)
    (h1 : prefix1.data.isPrefixOf rest.data = false)
    (h2 : prefix2.data.isPrefixOf rest.data = false)
    (h3 : prefix1.data.isPrefixOf param.data = false)
    (h4 : prefix2.data.isPrefixOf param.data = false) :
    schemeUrl (prefix1 ++ rest) = rest ∧
    schemeUrl (prefix2 ++ rest) = rest ∧
    schemeUrl param = param ∧
    schemeUrl "clash://install-config/?url=https://example.com/p.yaml"
      = "https://example.com/p.yaml" := by
  refine ⟨?_, ?_, ?_, by decide⟩
  · unfold schemeUrl
    rw [trim_p1_strip_once rest h1, trim_no_match _ _ h2]
  · unfold schemeUrl
    rw [trim_no_match prefix1 (prefix2 ++ rest)
        (by rw [string_data_append]; exact p1_not_prefixOf_p2_append rest.data),
      trim_p2_strip_once rest h2]
  · unfold schemeUrl
    rw [trim_no_match _ _ h3, trim_no_match _ _ h4]

/-- C8, witness: the single-occurrence strip at the claim's own example. -/
theorem schemeUrl_spec_witness :
    schemeUrl (prefix1 ++ "https://example.com/p.yaml")
      = "https://example.com/p.yaml" :=
  (schemeUrl_spec "https://example.com/p.yaml" "https://plain.example/x.yaml"
    (by decide) (by decide) (by decide) (by decide)).1

/-- C1, counterexample.  On a successful fetch whose profile append fails,
`resolve_scheme` reaches neither notification call: zero notifications are
emitted, not the exactly-one-Failure the claim states. -/
theorem resolve_scheme_silent_append_failure :
    ((resolve_scheme "clash://install-config/?url=https://example.com/p.yaml"
        true false true).notifications = []) ∧
    ((resolve_scheme "clash://install-config/?url=https://example.com/p.yaml"
        true false true).notifications.length = 1 → False) := by decide

/-- C1, amended.  `resolve_scheme` emits exactly one notification on fetch
failure (Failure, with the URL logged) and on fetch + append success
(Success); when the fetch succeeds but the append fails it emits no
notification at all and logs nothing — the append failure is silently
dropped rather than reported as Failure. -/
theorem resolve_scheme_notification_cases (param : String) (appendOk : Bool) :
    ((resolve_scheme param true true true).notifications
      = [NotifyBody.importSuccess]) ∧
    (∀ showOk, (resolve_scheme param true false showOk).notifications = []) ∧
    ((resolve_scheme param false appendOk true).notifications
      = [NotifyBody.importFailed]) ∧
    ((resolve_scheme param false appendOk true).loggedUrl = true) ∧
    ((resolve_scheme param true false true).loggedUrl = false) := by
  simp [resolve_scheme]

/-- C10: in both branches that reach a notification, a failing
`Notification::show()` makes the `.unwrap()` panic, aborting the task;
with a successful show no panic occurs, and the silent append-failure path
never reaches a show at all. -/
theorem resolve_scheme_show_unwrap_panics (param : String) (appendOk : Bool) :
    ((resolve_scheme param true true false).panicked = true) ∧
    ((resolve_scheme param false appendOk false).panicked = true) ∧
    ((resolve_scheme param true true true).panicked = false) ∧
    ((resolve_scheme param false appendOk true).panicked = false) ∧
    (∀ showOk, (resolve_scheme param true false showOk).panicked = false) := by
  simp [resolve_scheme]

/-- C2: with `enable_random_port` false the resolved port is
`verge_mixed_port.unwrap_or(clash default)`; with it true, a bind failure
or a `local_addr` failure falls back to the same chain; and resolution
never fails fatally — the result is always either the probed port or the
fallback chain. -/
theorem resolved_port_spec (probe : BindProbe) (vmp : Option Nat) (cmp : Nat) :
    (resolved_port false probe vmp cmp = fallback_port vmp cmp) ∧
    (probe = BindProbe.bindErr ∨ probe = BindProbe.localAddrErr →
      resolved_port true probe vmp cmp = fallback_port vmp cmp) ∧
    (∀ p, fallback_port (some p) cmp = p) ∧
    (fallback_port none cmp = cmp) ∧
    (∀ er, resolved_port er probe vmp cmp = fallback_port vmp cmp ∨
      ∃ p, probe = BindProbe.ok p ∧ resolved_port er probe vmp cmp = p) := by
  refine ⟨rfl, ?_, fun p => rfl, rfl, ?_⟩
  · rintro (rfl | rfl) <;> simp [resolved_port, find_unused_port, Except.toOption]
  · intro er
    cases er <;> cases probe <;>
      simp [resolved_port, find_unused_port, fallback_port, Except.toOption]

/-- C2, witness: a failing bind probe under random-port mode degrades to
the configured port. -/
theorem resolved_port_spec_witness :
    resolved_port true BindProbe.bindErr (some 7890) 7897
      = fallback_port (some 7890) 7897 :=
  (resolved_port_spec BindProbe.bindErr (some 7890) 7897).2.1 (Or.inl rfl)

/-- C3: a persisted rect with all four fields has an undersized width
clamped up to 600 and an undersized height clamped up to 520 on the
offending axis while the rect is still used; a value of length ≠ 4 or an
absent value takes the platform default size with centering. -/
theorem validate_window_size_position_spec (p : Platform) (l : List ℚ)
    (w h x y : ℚ) :
    (w < 600 → validate_window_size_position (some [w, h, x, y])
      = PlacementDecision.usePersisted 600 (clampMin 520 h) x y) ∧
    (h < 520 → validate_window_size_position (some [w, h, x, y])
      = PlacementDecision.usePersisted (clampMin 600 w) 520 x y) ∧
    (600 ≤ w → 520 ≤ h → validate_window_size_position (some [w, h, x, y])
      = PlacementDecision.usePersisted w h x y) ∧
    (l.length ≠ 4 →
      validate_window_size_position (some l) = PlacementDecision.usePlatformDefault) ∧
    (validate_window_size_position none = PlacementDecision.usePlatformDefault) ∧
    (l.length ≠ 4 → builtGeometry p (some l)
      = ⟨(platformDefaultSize p).1, (platformDefaultSize p).2, none, true⟩) ∧
    (builtGeometry p none
      = ⟨(platformDefaultSize p).1, (platformDefaultSize p).2, none, true⟩) := by
  refine ⟨?_, ?_, ?_, ?_, rfl, ?_, rfl⟩
  · intro hw
    simp [validate_window_size_position, clampMin, max_eq_left hw.le, List.get]
  · intro hh
    simp [validate_window_size_position, clampMin, max_eq_left hh.le, List.get]
  · intro hw hh
    simp [validate_window_size_position, clampMin, max_eq_right hw, max_eq_right hh,
      List.get]
  · intro hl
    simp [validate_window_size_position, hl]
  · intro hl
    simp [builtGeometry, validate_window_size_position, hl]

/-- C3, witness: a 599-wide rect is clamped to width 600, position kept. -/
theorem validate_window_size_position_spec_witness :
    validate_window_size_position (some [599, 636, 100, 100])
      = PlacementDecision.usePersisted 600 (clampMin 520 636) 100 100 :=
  (validate_window_size_position_spec Platform.windows [] 599 636 100 100).1
    (by norm_num)

/-- For every `u32` width below `2^31 + 200`, the `u32` subtraction of 200
followed by the `as i32` cast agrees with exact integer subtraction. -/
theorem toI32_wrapSub200 (W : Nat) (hW : W < 2 ^ 31 + 200) :
    toI32 (wrapSub200 W) = (W : Int) - 200 := by
  unfold toI32 wrapSub200
  split <;> omega

/-- C4, counterexample.  The claim quantifies over every monitor size, but
`size.width - 200` is computed at `u32` and cast to `i32`: at monitor
width `2^31 + 300` the cast value is negative, so the window at `(0, 0)` —
well inside the claim's bounds, since `W - 200 > 0` — is re-centered
anyway. -/
theorem offScreen_u32_wrap_counterexample :
    offScreen (2 ^ 31 + 300) 1080 0 0 = true ∧
    offScreenSpecC4 (2 ^ 31 + 300) 1080 0 0 = false := by decide

/-- C4, amended.  Re-centering is forced iff `x < -400` or `x` exceeds the
`i32` cast of the `u32` value `W - 200` (similarly for `y` against
`H - 200` and `-200`); whenever `W` and `H` are below `2^31 + 200` — every
realistic monitor — this coincides with the claim's exact arithmetic, the
comparisons are strict so the boundary values do not trigger, and a failed
monitor or position lookup defaults to re-centering. -/
theorem offScreen_spec (W H : Nat) (x y : Int)
    (hW : W < 2 ^ 31 + 200) (hH : H < 2 ^ 31 + 200) :
    (offScreen W H x y = true ↔
      x < -400 ∨ (W : Int) - 200 < x ∨ y < -200 ∨ (H : Int) - 200 < y) ∧
    (x = -400 ∨ x = (W : Int) - 200 → -200 ≤ y → y ≤ (H : Int) - 200 →
      offScreen W H x y = false) ∧
    (centerDecision (Except.error ()) = true) ∧
    (∀ b, centerDecision (Except.ok b) = b) := by
  have hw := toI32_wrapSub200 W hW
  have hh := toI32_wrapSub200 H hH
  refine ⟨by simp [offScreen, hw, hh, or_assoc], ?_, rfl, fun b => rfl⟩
  intro hx hy1 hy2
  rcases hx with rfl | rfl <;> simp [offScreen, hw, hh] <;> omega

/-- C4, witness: on a 1920×1080 monitor the boundary position `x = -400`
does not trigger re-centering. -/
theorem offScreen_spec_witness : offScreen 1920 1080 (-400) 0 = false :=
  (offScreen_spec 1920 1080 (-400) 0 (by norm_num) (by norm_num)).2.1
    (Or.inl rfl) (by norm_num) (by norm_num)

/-- C5: when a `"main"` window already exists, `create_window`
unminimizes, shows and focuses it and builds nothing, so two successive
calls leave exactly the one existing window, focused and visible, with
both calls reporting that no window was built. -/
theorem create_window_idempotent (p1 p2 : Platform) (cfg1 cfg2 : VergeWindowCfg)
    (b1 b2 : Bool) (o1 o2 : Except Unit Bool) (sys : WinSys) (w : MainWindow)
    (hw : sys.window = some w) :
    ((create_window p1 cfg1 b1 o1 sys).2 = false) ∧
    ((create_window p1 cfg1 b1 o1 sys).1.window
      = some { w with minimized := false, visible := true, focused := true }) ∧
    ((create_window p2 cfg2 b2 o2 (create_window p1 cfg1 b1 o1 sys).1).2 = false) ∧
    ((create_window p2 cfg2 b2 o2 (create_window p1 cfg1 b1 o1 sys).1).1.window
      = some { w with minimized := false, visible := true, focused := true }) ∧
    ((create_window p2 cfg2 b2 o2 (create_window p1 cfg1 b1 o1 sys).1).1.window).isSome
      = true := by
  obtain ⟨win⟩ := sys
  simp only [WinSys.mk.injEq] at hw ⊢
  subst hw
  simp [create_window]

/-- C5, witness: refocusing a concrete minimized window twice. -/
theorem create_window_idempotent_witness :
    (create_window Platform.linux ⟨none, none⟩ true (Except.ok false)
      (create_window Platform.linux ⟨none, none⟩ true (Except.ok false)
        ⟨some ⟨true, false, false, false, ⟨800, 642, none, true⟩, false⟩⟩).1).1.window
      = some ⟨false, true, true, false, ⟨800, 642, none, true⟩, false⟩ :=
  (create_window_idempotent Platform.linux Platform.linux ⟨none, none⟩ ⟨none, none⟩
    true true (Except.ok false) (Except.ok false)
    ⟨some ⟨true, false, false, false, ⟨800, 642, none, true⟩, false⟩⟩
    ⟨true, false, false, false, ⟨800, 642, none, true⟩, false⟩ rfl).2.2.2.1

/-- C6, counterexample.  With `save_to_file = true`, `save_file()` runs
*before* this call's geometry update: the flushed snapshot still has the
old `window_size_position` (`none`), while only the in-memory
configuration holds the new rect — the configuration "as updated by this
call" is not what reaches durable storage. -/
theorem save_flush_precedes_update :
    ((save_window_size_position true ⟨none, none⟩
        (some ⟨800, 636, 100, 100, 1, false⟩) ⟨none, none⟩).mem.window_size_position
      = some [800, 636, 100, 100]) ∧
    ((save_window_size_position true ⟨none, none⟩
        (some ⟨800, 636, 100, 100, 1, false⟩) ⟨none, none⟩).disk.window_size_position
      = none) := by
  constructor
  · simp [save_window_size_position]
    norm_num
  · simp [save_window_size_position]

/-- C6, amended.  `save_window_size_position` returns an error whenever no
main window exists (leaving the in-memory configuration untouched); with a
window, it succeeds, always records the maximized flag, and writes
`window_size_position` back exactly when the window is not maximized and
its logical size is at least `600 × 520`; and when `save_to_file` is true
the configuration **as it stood before this call's updates** is flushed —
the flush precedes the update, so this call's changes reach only memory. -/
theorem save_window_size_position_spec (stf : Bool) (verge disk : VergeGeom)
    (w : LiveWindow) :
    (∃ e, (save_window_size_position stf verge none disk).ret = Except.error e) ∧
    ((save_window_size_position stf verge none disk).mem = verge) ∧
    (∀ win : Option LiveWindow,
      (save_window_size_position stf verge win disk).disk
        = if stf then verge else disk) ∧
    ((save_window_size_position stf verge (some w) disk).ret = Except.ok ()) ∧
    (w.isMaximized = true →
      (save_window_size_position stf verge (some w) disk).mem.window_size_position
        = verge.window_size_position) ∧
    (w.physWidth / w.scale < 600 →
      (save_window_size_position stf verge (some w) disk).mem.window_size_position
        = verge.window_size_position) ∧
    (w.physHeight / w.scale < 520 →
      (save_window_size_position stf verge (some w) disk).mem.window_size_position
        = verge.window_size_position) ∧
    (w.isMaximized = false → 600 ≤ w.physWidth / w.scale →
      520 ≤ w.physHeight / w.scale →
      (save_window_size_position stf verge (some w) disk).mem.window_size_position
        = some [w.physWidth / w.scale, w.physHeight / w.scale,
                w.physX / w.scale, w.physY / w.scale]) ∧
    ((save_window_size_position stf verge (some w) disk).mem.window_is_maximized
      = some w.isMaximized) := by
  refine ⟨⟨"failed to get window", rfl⟩, rfl, ?_, rfl, ?_, ?_, ?_, ?_, ?_⟩
  · intro win
    cases win <;> rfl
  · intro hmax
    simp [save_window_size_position, hmax]
  · intro hw
    simp [save_window_size_position, not_le.mpr hw]
  · intro hh
    simp [save_window_size_position, not_le.mpr hh]
  · intro hmax hw hh
    simp [save_window_size_position, hmax, hw, hh]
  · simp only [save_window_size_position]
    split <;> rfl

/-- C6, witness: a valid non-maximized 800×636 window at scale 1 is
written back into the in-memory configuration. -/
theorem save_window_size_position_spec_witness :
    (save_window_size_position true ⟨none, none⟩
      (some ⟨800, 636, 100, 100, 1, false⟩)
      ⟨some [1, 2, 3, 4], some true⟩).mem.window_size_position
      = some [800 / 1, 636 / 1, 100 / 1, 100 / 1] :=
  (save_window_size_position_spec true ⟨none, none⟩ ⟨some [1, 2, 3, 4], some true⟩
    ⟨800, 636, 100, 100, 1, false⟩).2.2.2.2.2.2.2.1 rfl (by norm_num) (by norm_num)

/-- C7: persisting a non-maximized window with logical inner size
`(800, 636)`, outer position `(100, 100)` and scale factor `1.0` stores
`[800, 636, 100, 100]`, and validating that stored value at the next
window creation uses it unchanged — no clamping, no platform default. -/
theorem save_then_validate_round_trip :
    ((save_window_size_position false ⟨none, none⟩
        (some ⟨800, 636, 100, 100, 1, false⟩) ⟨none, none⟩).mem.window_size_position
      = some [800, 636, 100, 100]) ∧
    (validate_window_size_position
        ((save_window_size_position false ⟨none, none⟩
          (some ⟨800, 636, 100, 100, 1, false⟩)
          ⟨none, none⟩).mem.window_size_position)
      = PlacementDecision.usePersisted 800 636 100 100) := by
  have hmem : (save_window_size_position false ⟨none, none⟩
      (some ⟨800, 636, 100, 100, 1, false⟩) ⟨none, none⟩).mem.window_size_position
      = some [800, 636, 100, 100] := by
    simp [save_window_size_position]
    norm_num
  refine ⟨hmem, ?_⟩
  rw [hmem]
  simp [validate_window_size_position, clampMin, List.get]
  norm_num

/-- C9: when argv holds the program name plus exactly one extra argument,
`resolve_setup` performs exactly one scheme import, of that argument, and
it is the final step of the synchronous bootstrap sequence (the `block_on`
completes before `resolve_setup` returns); with no extra argument there is
no import step at all. -/
theorem resolve_setup_scheme_import (er : Bool) (probe : BindProbe)
    (vmp : Option Nat) (cmp : Nat) (ss : Option Bool) (prog url : String) :
    ((resolve_setup er probe vmp cmp ss [prog, url]).filter Step.isImport
      = [Step.schemeImport url]) ∧
    ((resolve_setup er probe vmp cmp ss [prog, url]).getLast?
      = some (Step.schemeImport url)) ∧
    ((resolve_setup er probe vmp cmp ss [prog]).filter Step.isImport = []) := by
  cases hss : ss.getD false <;>
    simp [resolve_setup, Step.isImport, hss, List.filter_append]

end Resolve
